import Mathlib

/-!
Verification of the client/server authentication state-synchronization
protocol: the Jotai auth store and its orchestrator atoms, the AuthProvider
session synchronizer, the tRPC client header/error interceptors, and the
server context builder with the protected-procedure guard.

Each definition is a shallow embedding of the corresponding source
function; provider network calls are modelled as explicit call-outcome
parameters (resolved value versus thrown exception), and each orchestrator
returns the ordered list of store writes it performs.
-/

/-- A user profile as built from provider session data (authStore.ts). -/
structure User where
  id : String
  email : String
  name : String
  deriving Repr, DecidableEq

/-- The provider user record inside a session: id, email and the optional
display name found in user_metadata. -/
structure SupabaseUser where
  id : String
  email : String
  metaName : Option String
  deriving Repr, DecidableEq

/-- A provider session: its user and the access token it carries. -/
structure Session where
  user : SupabaseUser
  access_token : String
  deriving Repr, DecidableEq

/-- The canonical client-side authentication snapshot (authStore.ts). -/
structure AuthState where
  isAuthenticated : Bool
  user : Option User
  loading : Bool
  error : Option String
  loggingOut : Bool
  deriving Repr, DecidableEq

/-- The response an auth orchestrator returns to its caller (authStore.ts). -/
structure AuthResponse where
  user : Option User
  needsConfirmation : Bool
  success : Bool
  deriving Repr, DecidableEq

/-- JavaScript a-or-else-b over an optional string, with the empty string
falsy, as in the source expressions of the shape a.name or fallback. -/
def jsOr (s : Option String) (d : String) : String :=
  match s with
  | some v => if v = "" then d else v
  | none => d

/-- The local part of an email address: email.split at the at-sign, first
element. -/
def localPart (email : String) : String :=
  (email.splitOn "@").headD ""

/-- Build a User from provider data: name defaults to the local part of the
email when user_metadata carries no (non-empty) name. -/
def mkUser (su : SupabaseUser) : User :=
  { id := su.id, email := su.email, name := jsOr su.metaName (localPart su.email) }

/-- The initial value of the auth state atom (authStore.ts). -/
def initialAuthState : AuthState :=
  { isAuthenticated := false, user := none, loading := true, error := none, loggingOut := false }

/-- The fully logged-out snapshot written by sign-out and by the
SIGNED_OUT event handler. -/
def signedOutState : AuthState :=
  { isAuthenticated := false, user := none, loading := false, error := none, loggingOut := false }

/-- The authenticated snapshot written on a successful session. -/
def authenticatedState (u : User) : AuthState :=
  { isAuthenticated := true, user := some u, loading := false, error := none, loggingOut := false }

/-- The snapshot written when initialization fails with a message. -/
def initErrorState (msg : String) : AuthState :=
  { isAuthenticated := false, user := none, loading := false, error := some msg, loggingOut := false }

/-- The single store write performed by the setLoading atom: sets loading
and clears error exactly when loading is being set to true. -/
def setLoadingAtom (loading : Bool) (st : AuthState) : AuthState :=
  { st with loading := loading, error := if loading then none else st.error }

/-- The single store write performed by the clearError atom. -/
def clearErrorAtom (st : AuthState) : AuthState :=
  { st with error := none }

/-! ## Request authorization interceptor (tRPC client headers) -/

/-- The access token of an optional provider session, with JavaScript
truthiness: a missing session or an empty token yields nothing. -/
def sessionToken (sess : Option Session) : Option String :=
  match sess with
  | some s => if s.access_token = "" then none else some s.access_token
  | none => none

/-- The authorization header value built for a token. -/
def bearerHeader (t : String) : String := "Bearer " ++ t

/-- The per-call header decision of the tRPC client: consult the store
first; when authenticated, or still loading, fetch the current provider
session and attach its token when present; otherwise (definitively logged
out) attach nothing. Returns the optional authorization header value. -/
def headers (st : AuthState) (providerSession : Option Session) : Option String :=
  if st.isAuthenticated then
    match sessionToken providerSession with
    | some t => some (bearerHeader t)
    | none => none
  else if st.loading then
    match sessionToken providerSession with
    | some t => some (bearerHeader t)
    | none => none
  else
    none

/-! ## Global error interceptor (tRPC error link) -/

/-- An RPC error as the error link observes it: whether it is a tRPC
client error, its optional machine-readable code, and its message. -/
structure RpcError where
  isClientError : Bool
  code : Option String
  msg : String
  deriving Repr, DecidableEq

/-- The error link handling of one erroring operation: when the error is a
tRPC client error with code UNAUTHORIZED it assigns the window location
(returned as the redirect target), and in every case it passes the error
through to the caller unmodified. -/
def errorLinkOnError (e : RpcError) : Option String × RpcError :=
  if e.isClientError = true ∧ e.code = some "UNAUTHORIZED" then
    (some "/", e)
  else
    (none, e)

/-- The redirect assignments performed across a list of erroring
operations observed in the same tick. -/
def errorLinkRedirects (errs : List RpcError) : List String :=
  errs.filterMap (fun e => (errorLinkOnError e).1)

/-- The errors passed through to the callers across a list of erroring
operations. -/
def errorLinkPassthrough (errs : List RpcError) : List RpcError :=
  errs.map (fun e => (errorLinkOnError e).2)

/-! ## Provider call outcomes -/

/-- The outcome of an awaited provider call that resolves to a value of
type a or throws; a thrown error may lack a message. -/
inductive ProviderCall (α : Type) where
  | resolves (a : α)
  | throws (msg : Option String)
  deriving Repr, DecidableEq

/-- Whether the call resolved. -/
def ProviderCall.isResolved {α : Type} : ProviderCall α → Bool
  | .resolves _ => true
  | .throws _ => false

/-- The resolved shape of the provider getSession call: an optional
session and an optional error (its message). -/
structure SessionResult where
  session : Option Session
  error : Option String
  deriving Repr, DecidableEq

/-- The resolved shape of the provider signUp and signInWithPassword
calls: data with optional user and session, plus an optional error. -/
structure AuthCallData where
  user : Option SupabaseUser
  session : Option Session
  deriving Repr, DecidableEq

/-- The outcome of an awaited signUp or signInWithPassword call. -/
inductive AuthCall where
  | resolves (data : AuthCallData) (error : Option String)
  | throws (msg : String)
  deriving Repr, DecidableEq

/-! ## Session synchronizer: start-up initialization -/

/-- The fallback message used when initialization catches an error that
carries no (non-empty) message. -/
def initFallbackMsg : String := "Authentication initialization failed"

/-- The ordered store writes the auth initialization atom performs, given
the outcome of the provider getSession call: set loading, then exactly one
full replace according to the outcome (resolved error, session present,
no session, or thrown). -/
def initializeAuthAtom (call : ProviderCall SessionResult) (st : AuthState) : List AuthState :=
  let st1 := setLoadingAtom true st
  match call with
  | .resolves r =>
    match r.error with
    | some msg => [st1, initErrorState msg]
    | none =>
      match r.session with
      | some s => [st1, authenticatedState (mkUser s.user)]
      | none => [st1, signedOutState]
  | .throws m => [st1, initErrorState (jsOr m initFallbackMsg)]

/-- The message a failing initialization surfaces: the resolved error
message as-is, or the thrown message with the fallback applied; nothing
when the lookup succeeded. -/
def initFailureMsg : ProviderCall SessionResult → Option String
  | .resolves r => r.error
  | .throws m => some (jsOr m initFallbackMsg)

/-! ## Sign-up and sign-in orchestrators -/

/-- The ordered store writes and the returned response (or propagated
error) of the sign-up atom. On a resolved provider error the inner throw
is re-caught by the outer handler, so setLoading false is written twice;
with user and session present the authenticated snapshot is written;
otherwise only setLoading false. Success requires only a user. -/
def signUpAtom (call : AuthCall) (st : AuthState) :
    List AuthState × Except String AuthResponse :=
  let st1 := setLoadingAtom true st
  match call with
  | .resolves data err =>
    match err with
    | some msg =>
      let st2 := setLoadingAtom false st1
      ([st1, st2, setLoadingAtom false st2], .error msg)
    | none =>
      let user := data.user.map mkUser
      let response : AuthResponse :=
        { user := user,
          needsConfirmation := data.user.isSome && data.session.isNone,
          success := data.user.isSome }
      if data.user.isSome ∧ data.session.isSome then
        ([st1, { isAuthenticated := true, user := user, loading := false,
                 error := none, loggingOut := false }], .ok response)
      else
        ([st1, setLoadingAtom false st1], .ok response)
  | .throws msg => ([st1, setLoadingAtom false st1], .error msg)

/-- The ordered store writes and the returned response (or propagated
error) of the sign-in atom; identical to sign-up except that success
requires both a user and a session. -/
def signInAtom (call : AuthCall) (st : AuthState) :
    List AuthState × Except String AuthResponse :=
  let st1 := setLoadingAtom true st
  match call with
  | .resolves data err =>
    match err with
    | some msg =>
      let st2 := setLoadingAtom false st1
      ([st1, st2, setLoadingAtom false st2], .error msg)
    | none =>
      let user := data.user.map mkUser
      let response : AuthResponse :=
        { user := user,
          needsConfirmation := data.user.isSome && data.session.isNone,
          success := data.user.isSome && data.session.isSome }
      if data.user.isSome ∧ data.session.isSome then
        ([st1, { isAuthenticated := true, user := user, loading := false,
                 error := none, loggingOut := false }], .ok response)
      else
        ([st1, setLoadingAtom false st1], .ok response)
  | .throws msg => ([st1, setLoadingAtom false st1], .error msg)

/-! ## Sign-out orchestrator -/

/-- The provider environment one sign-out run observes: the outcome of
the first global sign-out call, of the verification getSession, and of
the retry sign-out call (consulted only when the verification still sees
a session). -/
structure SignOutEnv where
  signOutCall : ProviderCall (Option String)
  sessionAfter : ProviderCall (Option Session)
  retryCall : ProviderCall (Option String)
  deriving Repr, DecidableEq

/-- Whether the verification lookup resolved and still saw a session. -/
def sessionStillPresent (env : SignOutEnv) : Bool :=
  match env.sessionAfter with
  | .resolves (some _) => true
  | _ => false

/-- The sign-out atom: its ordered store writes, the number of provider
sign-out invocations, and the number of verification getSession
invocations. It first marks loggingOut, then signs out (a resolved error
is only logged), verifies the session is gone, retries sign-out once if a
session is still present, and on every path — the normal one and the
catch — finishes by writing the fully logged-out snapshot. It never
propagates an error (the return type is total, no exception). -/
def signOutAtom (env : SignOutEnv) (st : AuthState) :
    List AuthState × Nat × Nat :=
  let st1 := { st with loggingOut := true }
  match env.signOutCall with
  | .throws _ => ([st1, signedOutState], 1, 0)
  | .resolves _err =>
    match env.sessionAfter with
    | .throws _ => ([st1, signedOutState], 1, 1)
    | .resolves (some _) =>
      match env.retryCall with
      | .throws _ => ([st1, signedOutState], 2, 1)
      | .resolves _ => ([st1, signedOutState], 2, 1)
    | .resolves none => ([st1, signedOutState], 1, 1)

/-! ## Session synchronizer: provider event handler -/

/-- The provider session events the AuthProvider subscription handles. -/
inductive AuthEvent where
  | signedIn
  | signedOut
  | tokenRefreshed
  | userUpdated
  | other
  deriving Repr, DecidableEq

/-- The store writes of the event handler body: SIGNED_IN and
TOKEN_REFRESHED with a session user write the authenticated snapshot,
SIGNED_OUT writes the logged-out snapshot, USER_UPDATED with a session
user writes the authenticated snapshot, anything else writes nothing. -/
def authEventWrites (ev : AuthEvent) (session : Option Session) : List AuthState :=
  match ev with
  | .signedIn | .tokenRefreshed =>
    match session with
    | some s => [authenticatedState (mkUser s.user)]
    | none => []
  | .signedOut => [signedOutState]
  | .userUpdated =>
    match session with
    | some s => [authenticatedState (mkUser s.user)]
    | none => []
  | .other => []

/-- The guarded event handler: when the component is unmounted or the
re-entrancy flag marks initialization as in flight, the event is dropped
and no store write happens; otherwise the handler body runs. -/
def onAuthStateChange (isMounted : Bool) (initializing : Bool)
    (ev : AuthEvent) (session : Option Session) : List AuthState :=
  if !isMounted || initializing then []
  else authEventWrites ev session

/-! ## Server context builder and procedure guard -/

/-- The resolved shape of the admin getUser token verification: an
optional verified user and an optional error. -/
structure GetUserResult where
  user : Option SupabaseUser
  error : Option String
  deriving Repr, DecidableEq

/-- JavaScript startsWith over strings, evaluated on the character
list. -/
def strStartsWith (s p : String) : Bool :=
  s.data.take p.data.length == p.data

/-- JavaScript substring from an index, evaluated on the character
list. -/
def strDrop (s : String) (n : Nat) : String :=
  String.mk (s.data.drop n)

/-- The per-request server context: the verified identity (or nothing)
and the request timestamp. -/
structure RequestContext where
  user : Option User
  date : Nat
  deriving Repr, DecidableEq

/-- The server context builder: extract the bearer token from the
authorization header, verify it against the provider, and expose the
verified user; on a missing or malformed header, a verification error, a
missing user, or a thrown verification call, expose nothing. -/
def createContext (authHeader : Option String)
    (verify : String → ProviderCall GetUserResult) (now : Nat) : RequestContext :=
  let user : Option User :=
    match authHeader with
    | some h =>
      if strStartsWith h "Bearer " then
        match verify (strDrop h 7) with
        | .resolves r =>
          match r.error, r.user with
          | none, some su => some (mkUser su)
          | _, _ => none
        | .throws _ => none
      else none
    | none => none
  { user := user, date := now }

/-- The outcome of running an RPC procedure: a value, or a tRPC error
with the UNAUTHORIZED code. -/
inductive ProcOutcome (α : Type) where
  | ok (a : α)
  | unauthorizedError
  deriving Repr, DecidableEq

/-- Modelled from the spec: the tRPC instance module that defines the
procedure guards (server/trpc.ts) is not among the provided source files —
only its callers (the example router) and its tests are. Per the spec, a
protected RPC operation fails with an UNAUTHORIZED condition whenever the
request context carries no user, and otherwise runs its handler with the
verified identity. -/
def protectedProcedure {α : Type} (ctx : RequestContext) (handler : User → α) :
    ProcOutcome α :=
  match ctx.user with
  | some u => .ok (handler u)
  | none => .unauthorizedError

/-- Modelled from the spec: a public RPC operation runs its handler
regardless of whether the request context carries a user. -/
def publicProcedure {α : Type} (ctx : RequestContext) (handler : RequestContext → α) :
    ProcOutcome α :=
  .ok (handler ctx)

/-! ## Reachable store states -/

/-- One store-mutating operation of the protocol, with the provider
outcomes it observed: initialization, sign-up, sign-in, sign-out, the
plain setLoading and clearError atoms, and a provider session event
arriving at the AuthProvider subscription. -/
inductive AuthOp where
  | initAuth (call : ProviderCall SessionResult)
  | signUp (call : AuthCall)
  | signIn (call : AuthCall)
  | signOutOp (env : SignOutEnv)
  | setLoading (b : Bool)
  | clearError
  | authEvent (isMounted : Bool) (initializing : Bool) (ev : AuthEvent)
      (session : Option Session)

/-- The ordered store writes an operation performs from a given state. -/
def AuthOp.writes : AuthOp → AuthState → List AuthState
  | .initAuth call, st => initializeAuthAtom call st
  | .signUp call, st => (signUpAtom call st).1
  | .signIn call, st => (signInAtom call st).1
  | .signOutOp env, st => (signOutAtom env st).1
  | .setLoading b, st => [setLoadingAtom b st]
  | .clearError, st => [clearErrorAtom st]
  | .authEvent m i ev s, _st => onAuthStateChange m i ev s

/-- A store snapshot reachable from the initial atom value through the
writes of any sequence of the defined operations (every intermediate
write counts as an observable snapshot). -/
inductive ReachableWrite : AuthState → Prop
  | start : ReachableWrite initialAuthState
  | step {st st' : AuthState} (op : AuthOp) :
      ReachableWrite st → st' ∈ op.writes st → ReachableWrite st'

/-- Claim C1: the per-call header decision follows the three-state table:
authenticated fetches the provider token and attaches Bearer token when
present (nothing when absent); not authenticated but loading does the
same; not authenticated and not loading attaches nothing for every
provider session, including a non-null one. -/
theorem interceptor_three_state_table (st : AuthState) (sess : Option Session) :
    (st.isAuthenticated = true →
      headers st sess = Option.map bearerHeader (sessionToken sess)) ∧
    (st.isAuthenticated = false → st.loading = true →
      headers st sess = Option.map bearerHeader (sessionToken sess)) ∧
    (st.isAuthenticated = false → st.loading = false →
      headers st sess = none) := by
  refine ⟨fun h1 => ?_, fun h1 h2 => ?_, fun h1 h2 => ?_⟩
  · simp only [headers, h1]
    cases sessionToken sess <;> simp
  · simp only [headers, h1, h2]
    cases sessionToken sess <;> simp
  · simp only [headers, h1, h2]
    simp

/-- Witness for C1: a definitively logged-out store attaches no header
even though the provider still returns a session with a token. -/
theorem interceptor_three_state_table_witness :
    headers { isAuthenticated := false, user := none, loading := false,
              error := none, loggingOut := false }
      (some { user := { id := "u1", email := "a@b.c", metaName := none },
              access_token := "tok" }) = none :=
  (interceptor_three_state_table _ _).2.2 rfl rfl

/-- Whether a token verification outcome fails to produce a verified
user: it resolved with an error, resolved without a user, or threw. -/
def verifyFailed (c : ProviderCall GetUserResult) : Prop :=
  match c with
  | .resolves r => r.error ≠ none ∨ r.user = none
  | .throws _ => True

/-- Claim C2: the context builder exposes the verified identity exactly
when a bearer token is present and verification succeeds, and nothing on
an absent or malformed header or a failed verification; a protected
operation fails with UNAUTHORIZED exactly when the context carries no
user, and a public operation runs regardless. -/
theorem context_builder_and_guard {α : Type} (authHeader : Option String)
    (verify : String → ProviderCall GetUserResult) (now : Nat)
    (handler : User → α) (pub : RequestContext → α) :
    (∀ h r su, authHeader = some h → strStartsWith h "Bearer " = true →
      verify (strDrop h 7) = ProviderCall.resolves r → r.error = none → r.user = some su →
      (createContext authHeader verify now).user = some (mkUser su)) ∧
    (authHeader = none → (createContext authHeader verify now).user = none) ∧
    (∀ h, authHeader = some h → strStartsWith h "Bearer " = false →
      (createContext authHeader verify now).user = none) ∧
    (∀ h, authHeader = some h → strStartsWith h "Bearer " = true →
      verifyFailed (verify (strDrop h 7)) →
      (createContext authHeader verify now).user = none) ∧
    (∀ ctx : RequestContext,
      protectedProcedure ctx handler = ProcOutcome.unauthorizedError ↔ ctx.user = none) ∧
    (∀ ctx : RequestContext, publicProcedure ctx pub = ProcOutcome.ok (pub ctx)) := by
  refine ⟨fun h r su hh hs hv he hu => ?_, fun hh => ?_, fun h hh hs => ?_,
          fun h hh hs hf => ?_, fun ctx => ?_, fun ctx => ?_⟩
  · subst hh
    simp [createContext, hs, hv, he, hu]
  · subst hh
    simp [createContext]
  · subst hh
    simp [createContext, hs]
  · subst hh
    simp only [createContext, hs, if_true]
    rcases hc : verify (strDrop h 7) with r | m
    · rw [hc] at hf
      rcases hf with hf | hf
      · rcases hr : r.error with _ | msg
        · exact absurd hr hf
        · simp [hr]
      · rcases hr : r.error with _ | msg
        · simp [hr, hf]
        · simp [hr]
    · simp
  · cases hu : ctx.user <;> simp [protectedProcedure, hu]
  · simp [publicProcedure]

/-- Witness for C2: a request with an expired bearer token on a protected
operation gets a context without a user and fails with UNAUTHORIZED. -/
theorem context_builder_and_guard_witness :
    protectedProcedure
      (createContext (some "Bearer expired")
        (fun _ => ProviderCall.resolves { user := none, error := some "Token expired" }) 0)
      (fun _ : User => true) = ProcOutcome.unauthorizedError := by
  have H := context_builder_and_guard (α := Bool) (some "Bearer expired")
    (fun _ => ProviderCall.resolves { user := none, error := some "Token expired" }) 0
    (fun _ => true) (fun _ => true)
  exact (H.2.2.2.2.1 _).mpr
    (H.2.2.2.1 "Bearer expired" rfl (by decide) (Or.inr rfl))

/-- Claim C3: the sign-out orchestration marks loggingOut first and, on
every exit path (provider sign-out resolved, resolved with an error, or
any step thrown), finishes by replacing the store with the fully
logged-out snapshot, in which loggingOut is false again; its return type
is total, so no error ever propagates to the caller. -/
theorem signout_always_ends_logged_out (env : SignOutEnv) (st : AuthState) :
    (signOutAtom env st).1.head? = some { st with loggingOut := true } ∧
    (signOutAtom env st).1.getLast? = some signedOutState ∧
    signedOutState =
      { isAuthenticated := false, user := none, loading := false,
        error := none, loggingOut := false } := by
  rcases env with ⟨so, sa, rc⟩
  rcases so with e₁ | m₁ <;> rcases sa with (_ | s) | m₂ <;> rcases rc with e₂ | m₃ <;>
    simp [signOutAtom, signedOutState]

/-- The UNAUTHORIZED tRPC client error used as a concrete input. -/
def unauthorizedRpcError : RpcError :=
  { isClientError := true, code := some "UNAUTHORIZED", msg := "UNAUTHORIZED" }

/-- Counterexample to claim C4: two concurrent calls that both fail with
UNAUTHORIZED in the same tick make the error link perform two redirect
assignments, not exactly one — the link has no once-only guard. -/
theorem error_link_two_failures_two_redirects :
    (errorLinkRedirects [unauthorizedRpcError, unauthorizedRpcError]).length = 2 ∧
    ¬ (errorLinkRedirects [unauthorizedRpcError, unauthorizedRpcError]).length = 1 := by
  constructor <;> simp [errorLinkRedirects, errorLinkOnError, unauthorizedRpcError]

/-- Claim C4 as amended: every UNAUTHORIZED tRPC client error triggers
one redirect assignment, so N concurrent UNAUTHORIZED failures perform N
assignments — all to the same constant target, the root path — while
errors with any other code trigger no redirect; every error, of either
kind, passes through to the caller unmodified. -/
theorem error_link_redirect_per_unauthorized (errs : List RpcError) :
    errorLinkRedirects errs =
      List.replicate
        (errs.countP (fun e => e.isClientError && e.code == some "UNAUTHORIZED")) "/" ∧
    errorLinkPassthrough errs = errs := by
  induction errs with
  | nil => simp [errorLinkRedirects, errorLinkPassthrough]
  | cons e tl ih =>
    obtain ⟨ih1, ih2⟩ := ih
    by_cases h : e.isClientError = true ∧ e.code = some "UNAUTHORIZED"
    · have he : errorLinkOnError e = (some "/", e) := by
        simp only [errorLinkOnError, if_pos h]
      have hcount : (e.isClientError && e.code == some "UNAUTHORIZED") = true := by
        simp [h.1, h.2]
      constructor
      · simp only [errorLinkRedirects] at ih1 ⊢
        rw [List.filterMap_cons, he]
        simp [ih1, hcount, List.replicate_succ, List.countP_cons]
      · simp only [errorLinkPassthrough] at ih2 ⊢
        rw [List.map_cons, he]
        simp [ih2]
    · have he : errorLinkOnError e = (none, e) := by
        simp only [errorLinkOnError, if_neg h]
      have hb : (e.isClientError && e.code == some "UNAUTHORIZED") = false := by
        rcases hcb : (e.isClientError && e.code == some "UNAUTHORIZED") with _ | _
        · rfl
        · rw [Bool.and_eq_true, beq_iff_eq] at hcb
          exact absurd hcb h
      constructor
      · simp only [errorLinkRedirects] at ih1 ⊢
        rw [List.filterMap_cons, he]
        simp [ih1, List.countP_cons, hb]
      · simp only [errorLinkPassthrough] at ih2 ⊢
        rw [List.map_cons, he]
        simp [ih2]

/-! ## The store invariants over reachable snapshots -/

/-- The store invariant the protocol maintains: an authenticated snapshot
carries a user, and a loading snapshot carries no error. -/
def storeInvariant (st : AuthState) : Prop :=
  (st.isAuthenticated = true → st.user ≠ none) ∧
  (st.loading = true → st.error = none)

/-- The setLoading write preserves the store invariant. -/
theorem setLoadingAtom_invariant (b : Bool) (st : AuthState)
    (h : storeInvariant st) : storeInvariant (setLoadingAtom b st) := by
  obtain ⟨h1, h2⟩ := h
  cases b
  · exact ⟨h1, fun hl => absurd hl (by simp [setLoadingAtom])⟩
  · exact ⟨h1, fun _ => rfl⟩

/-- The clearError write preserves the store invariant. -/
theorem clearErrorAtom_invariant (st : AuthState) (h : storeInvariant st) :
    storeInvariant (clearErrorAtom st) :=
  ⟨h.1, fun _ => rfl⟩

/-- Marking loggingOut preserves the store invariant. -/
theorem loggingOutMark_invariant (st : AuthState) (h : storeInvariant st) :
    storeInvariant { st with loggingOut := true } :=
  ⟨h.1, h.2⟩

/-- The logged-out snapshot satisfies the store invariant. -/
theorem signedOut_invariant : storeInvariant signedOutState :=
  ⟨fun hb => by simp [signedOutState] at hb, fun hb => by simp [signedOutState] at hb⟩

/-- The authenticated snapshot satisfies the store invariant. -/
theorem authenticated_invariant (u : User) : storeInvariant (authenticatedState u) :=
  ⟨fun _ => by simp [authenticatedState], fun hb => by simp [authenticatedState] at hb⟩

/-- The initialization-error snapshot satisfies the store invariant. -/
theorem initError_invariant (m : String) : storeInvariant (initErrorState m) :=
  ⟨fun hb => by simp [initErrorState] at hb, fun hb => by simp [initErrorState] at hb⟩

/-- The initial atom value satisfies the store invariant. -/
theorem initial_invariant : storeInvariant initialAuthState :=
  ⟨fun hb => by simp [initialAuthState] at hb, fun _ => rfl⟩

/-- Every store write of every operation preserves the store invariant. -/
theorem writes_preserve_invariant (op : AuthOp) (st st' : AuthState)
    (hst : storeInvariant st) (h : st' ∈ op.writes st) : storeInvariant st' := by
  have hA : storeInvariant (setLoadingAtom true st) := setLoadingAtom_invariant true st hst
  have hC : storeInvariant (setLoadingAtom false (setLoadingAtom true st)) :=
    setLoadingAtom_invariant false _ hA
  have hD := setLoadingAtom_invariant false _ hC
  cases op with
  | initAuth call =>
    rcases call with r | m
    · rcases hr : r.error with _ | msg
      · rcases hsess : r.session with _ | s
        · simp [AuthOp.writes, initializeAuthAtom, hr, hsess] at h
          rcases h with rfl | rfl
          · exact hA
          · exact signedOut_invariant
        · simp [AuthOp.writes, initializeAuthAtom, hr, hsess] at h
          rcases h with rfl | rfl
          · exact hA
          · exact authenticated_invariant _
      · simp [AuthOp.writes, initializeAuthAtom, hr] at h
        rcases h with rfl | rfl
        · exact hA
        · exact initError_invariant _
    · simp [AuthOp.writes, initializeAuthAtom] at h
      rcases h with rfl | rfl
      · exact hA
      · exact initError_invariant _
  | signUp call =>
    rcases call with ⟨data, err⟩ | msg
    · rcases err with _ | msg
      · by_cases hc : data.user.isSome ∧ data.session.isSome
        · simp [AuthOp.writes, signUpAtom, hc] at h
          rcases h with rfl | rfl
          · exact hA
          · obtain ⟨su, hsu⟩ := Option.isSome_iff_exists.mp hc.1
            exact ⟨fun _ => by simp [hsu], fun _ => rfl⟩
        · simp [AuthOp.writes, signUpAtom, hc] at h
          rcases h with rfl | rfl
          · exact hA
          · exact hC
      · simp [AuthOp.writes, signUpAtom] at h
        rcases h with rfl | rfl | rfl
        · exact hA
        · exact hC
        · exact hD
    · simp [AuthOp.writes, signUpAtom] at h
      rcases h with rfl | rfl
      · exact hA
      · exact hC
  | signIn call =>
    rcases call with ⟨data, err⟩ | msg
    · rcases err with _ | msg
      · by_cases hc : data.user.isSome ∧ data.session.isSome
        · simp [AuthOp.writes, signInAtom, hc] at h
          rcases h with rfl | rfl
          · exact hA
          · obtain ⟨su, hsu⟩ := Option.isSome_iff_exists.mp hc.1
            exact ⟨fun _ => by simp [hsu], fun _ => rfl⟩
        · simp [AuthOp.writes, signInAtom, hc] at h
          rcases h with rfl | rfl
          · exact hA
          · exact hC
      · simp [AuthOp.writes, signInAtom] at h
        rcases h with rfl | rfl | rfl
        · exact hA
        · exact hC
        · exact hD
    · simp [AuthOp.writes, signInAtom] at h
      rcases h with rfl | rfl
      · exact hA
      · exact hC
  | signOutOp env =>
    rcases env with ⟨so, sa, rc⟩
    rcases so with e₁ | m₁ <;> rcases sa with (_ | s) | m₂ <;> rcases rc with e₂ | m₃ <;>
      simp [AuthOp.writes, signOutAtom] at h <;>
      rcases h with rfl | rfl <;>
      first
        | exact loggingOutMark_invariant st hst
        | exact signedOut_invariant
  | setLoading b =>
    simp [AuthOp.writes] at h
    subst h
    exact setLoadingAtom_invariant b st hst
  | clearError =>
    simp [AuthOp.writes] at h
    subst h
    exact clearErrorAtom_invariant st hst
  | authEvent m i ev s =>
    cases m <;> cases i <;>
      simp [AuthOp.writes, onAuthStateChange] at h <;>
      rcases ev with _ | _ | _ | _ | _ <;> rcases s with _ | sess <;>
      simp [authEventWrites] at h <;>
      (try subst h) <;>
      first
        | exact authenticated_invariant _
        | exact signedOut_invariant

/-- Every reachable store snapshot satisfies the store invariant. -/
theorem reachable_invariant (st : AuthState) (h : ReachableWrite st) :
    storeInvariant st := by
  induction h with
  | start => exact initial_invariant
  | step op hr hmem ih => exact writes_preserve_invariant op _ _ ih hmem

/-- The concrete provider user used by witnesses. -/
def sampleSupabaseUser : SupabaseUser :=
  { id := "u1", email := "sam@example.com", metaName := some "Sam" }

/-- The concrete provider session used by witnesses. -/
def sampleSession : Session :=
  { user := sampleSupabaseUser, access_token := "tok-1" }

/-- Claim C5: every store state reachable from the initial state through
any sequence of the defined transition operations satisfies: if
isAuthenticated is true then user is non-null. -/
theorem reachable_authenticated_has_user (st : AuthState) (h : ReachableWrite st) :
    st.isAuthenticated = true → st.user ≠ none :=
  (reachable_invariant st h).1

/-- Witness for C5: the authenticated state reached by a SIGNED_IN event
carries a non-null user. -/
theorem reachable_authenticated_has_user_witness :
    (authenticatedState (mkUser sampleSupabaseUser)).user ≠ none :=
  reachable_authenticated_has_user _
    (ReachableWrite.step
      (AuthOp.authEvent true false AuthEvent.signedIn (some sampleSession))
      ReachableWrite.start
      (by simp [AuthOp.writes, onAuthStateChange, authEventWrites, sampleSession]))
    rfl

/-- Claim C6: a failing start-up session lookup (resolved provider error
or thrown lookup) leaves the store with the failure message in error,
isAuthenticated false, user null and loading false; and no initialization
outcome whatsoever ends with loading still true. -/
theorem init_failure_resolves_with_error (call : ProviderCall SessionResult)
    (st : AuthState) (msg : String) (h : initFailureMsg call = some msg) :
    (initializeAuthAtom call st).getLast? = some (initErrorState msg) ∧
    initErrorState msg =
      { isAuthenticated := false, user := none, loading := false,
        error := some msg, loggingOut := false } ∧
    (∀ (call' : ProviderCall SessionResult) (st' : AuthState),
      (initializeAuthAtom call' st').getLast?.map AuthState.loading = some false) := by
  refine ⟨?_, rfl, fun call' st' => ?_⟩
  · rcases call with r | m
    · simp only [initFailureMsg] at h
      simp [initializeAuthAtom, h]
    · simp only [initFailureMsg, Option.some.injEq] at h
      simp [initializeAuthAtom, h]
  · rcases call' with r | m
    · rcases hr : r.error with _ | msg'
      · rcases hsess : r.session with _ | s <;>
          simp [initializeAuthAtom, hr, hsess, signedOutState, authenticatedState,
            initErrorState]
      · simp [initializeAuthAtom, hr, initErrorState]
    · simp [initializeAuthAtom, initErrorState]

/-- Witness for C6: a getSession that resolves with a network error
message leaves the store logged out with that error and loading false. -/
theorem init_failure_witness :
    (initializeAuthAtom
      (ProviderCall.resolves { session := none, error := some "Network error" })
      initialAuthState).getLast? = some (initErrorState "Network error") :=
  (init_failure_resolves_with_error
    (ProviderCall.resolves { session := none, error := some "Network error" })
    initialAuthState "Network error" rfl).1

/-- Claim C7: a provider session event arriving while the re-entrancy
flag marks initialization as in flight is dropped — the handler performs
no store write, for any event kind, session payload and mount state, so
a mid-initialization event never mutates the store. -/
theorem event_during_init_dropped (m : Bool) (ev : AuthEvent)
    (sess : Option Session) :
    onAuthStateChange m true ev sess = [] := by
  cases m <;> rfl

/-- Claim C8: the setLoading-true write clears error in the same single
mutation, and no reachable store state has loading true together with a
non-null error. -/
theorem loading_write_clears_error :
    (∀ st : AuthState, (setLoadingAtom true st).error = none) ∧
    (∀ st : AuthState, ReachableWrite st → st.loading = true → st.error = none) :=
  ⟨fun _ => rfl, fun st h => (reachable_invariant st h).2⟩

/-- Witness for C8: the initial state is reachable, is loading, and has
no error. -/
theorem loading_write_clears_error_witness : initialAuthState.error = none :=
  loading_write_clears_error.2 initialAuthState ReachableWrite.start rfl

/-- Claim C9: when the provider sign-out call resolves, the orchestration
performs exactly one verification session query (zero when sign-out
threw), never more than one; it performs the one additional sign-out
invocation exactly when that verification still saw a session, and never
more than two sign-out invocations regardless of the retry outcome. -/
theorem signout_verification_and_single_retry (env : SignOutEnv) (st : AuthState) :
    (signOutAtom env st).2.2 ≤ 1 ∧
    (signOutAtom env st).2.1 ≤ 2 ∧
    (env.signOutCall.isResolved = true → (signOutAtom env st).2.2 = 1) ∧
    (env.signOutCall.isResolved = false → (signOutAtom env st).2.2 = 0) ∧
    ((signOutAtom env st).2.1 = 2 ↔
      (env.signOutCall.isResolved = true ∧ sessionStillPresent env = true)) := by
  rcases env with ⟨so, sa, rc⟩
  rcases so with e₁ | m₁ <;> rcases sa with (_ | s) | m₂ <;> rcases rc with e₂ | m₃ <;>
    simp [signOutAtom, ProviderCall.isResolved, sessionStillPresent]

/-- The concrete sign-out environment in which the verification query
still sees a session. -/
def retryEnv : SignOutEnv :=
  { signOutCall := ProviderCall.resolves none,
    sessionAfter := ProviderCall.resolves (some sampleSession),
    retryCall := ProviderCall.resolves none }

/-- Witness for C9: with a lingering session after a resolved sign-out,
exactly two sign-out invocations happen. -/
theorem signout_single_retry_witness :
    (signOutAtom retryEnv initialAuthState).2.1 = 2 :=
  (signout_verification_and_single_retry retryEnv initialAuthState).2.2.2.2.mpr
    ⟨rfl, rfl⟩

/-- Claim C10: on a resolved provider call without error, sign-up reports
success whenever a user is returned — even without a session, the
confirmation-pending case, which also reports needsConfirmation and
leaves the store not authenticated and not loading — while sign-in
reports success only when both a user and a session are returned. -/
theorem signup_signin_response_asymmetry (u : Option SupabaseUser)
    (s : Option Session) (st : AuthState) (hst : st.isAuthenticated = false) :
    (signUpAtom (AuthCall.resolves { user := u, session := s } none) st).2 =
      Except.ok { user := u.map mkUser,
                  needsConfirmation := u.isSome && s.isNone,
                  success := u.isSome } ∧
    (signInAtom (AuthCall.resolves { user := u, session := s } none) st).2 =
      Except.ok { user := u.map mkUser,
                  needsConfirmation := u.isSome && s.isNone,
                  success := u.isSome && s.isSome } ∧
    (u.isSome = true → s = none →
      (signUpAtom (AuthCall.resolves { user := u, session := s } none) st).1.getLast?.map
          (fun x => (x.isAuthenticated, x.loading)) = some (false, false)) := by
  refine ⟨?_, ?_, fun hu hs => ?_⟩
  · by_cases hc : u.isSome ∧ s.isSome
    · simp [signUpAtom, hc]
    · simp [signUpAtom, hc]
  · by_cases hc : u.isSome ∧ s.isSome
    · simp [signInAtom, hc]
    · simp [signInAtom, hc]
  · subst hs
    simp [signUpAtom, setLoadingAtom, hst]

/-- Witness for C10: sign-up with a user but no session reports success
with confirmation pending. -/
theorem signup_signin_response_asymmetry_witness :
    (signUpAtom
      (AuthCall.resolves { user := some sampleSupabaseUser, session := none } none)
      signedOutState).2 =
      Except.ok { user := some (mkUser sampleSupabaseUser),
                  needsConfirmation := true, success := true } :=
  (signup_signin_response_asymmetry (some sampleSupabaseUser) none signedOutState
    rfl).1
